import Mathlib

/-!
Shallow embedding of the video-generation providers of this repository
(`src/ai_content/providers/aimlapi/video.py` and
`src/ai_content/providers/pollinations/video.py`) and proofs about them.

JSON values flowing through remote responses are modelled by `JValue`.
Python `dict.get` returns `None` both for a missing key and for a stored
JSON `null` (JSON `null` parses to Python `None`), so `getKey` returns
`JValue.jnull` in both cases; key membership (`"k" in d`) is the separate
`hasKey`. Network and filesystem interactions are modelled by an oracle
record holding the outcome of each remote call (a value, or the message of the
raised exception) and by an `Effect` trace emitted alongside the result.
-/

inductive JValue where
  | jnull : JValue
  | jbool : Bool → JValue
  | jnum : Int → JValue
  | jstr : String → JValue
  | jarr : List JValue → JValue
  | jobj : List (String × JValue) → JValue

/-- Python truthiness of a JSON value (`None`, `False`, `0`, `""`, `[]`,
`{}` are falsy). -/
def jtruthy : JValue → Bool
  | .jnull => false
  | .jbool b => b
  | .jnum n => n != 0
  | .jstr s => !s.isEmpty
  | .jarr xs => !xs.isEmpty
  | .jobj fs => !fs.isEmpty

/-- Python `a or b` on JSON values: the first operand when truthy,
otherwise the second. -/
def pyOr (a b : JValue) : JValue :=
  if jtruthy a then a else b

/-- Python `d.get(k)`: the stored value, or `None` (here `jnull`) when the
key is absent. -/
def getKey (d : List (String × JValue)) (k : String) : JValue :=
  match d.find? (fun kv => kv.fst == k) with
  | some kv => kv.snd
  | none => .jnull

/-- Python `k in d`. -/
def hasKey (d : List (String × JValue)) (k : String) : Bool :=
  d.any (fun kv => kv.fst == k)

/-- Lookup in a string-valued association list (query parameters, HTTP
headers). -/
def lookupStr (d : List (String × String)) (k : String) : Option String :=
  (d.find? (fun kv => kv.fst == k)).map (fun kv => kv.snd)

/-- Lookup in a JSON-valued association list (request payloads). -/
def lookupJ (d : List (String × JValue)) (k : String) : Option JValue :=
  (d.find? (fun kv => kv.fst == k)).map (fun kv => kv.snd)

/-- Modelled from the spec: `GenerationResult` (`ai_content/core/result.py`
is not under `src/`) — "uniform outcome record" with fields `success`,
`provider`, `content_type`, optional `file_path`, `data`, `generation_id`,
`error`, and `metadata`.  `generation_id` is stored as the JSON value the
provider received, since the code stores whatever the response carried. -/
structure GenerationResult where
  success : Bool
  provider : String
  content_type : String
  file_path : Option String := none
  data : Option (List Nat) := none
  generation_id : Option JValue := none
  error : Option String := none
  metadata : List (String × JValue) := []

/-- Outward effects a `generate` call performs, in program order. -/
inductive Effect where
  | submit : String → List (String × JValue) → Effect
  | poll : String → JValue → Effect
  | download : JValue → Effect
  | httpGet : String → List (String × String) → List (String × String) → Effect
  | mkdirParentsOf : String → Effect
  | writeFile : String → List Nat → Effect

/-- Modelled from the spec: per-provider configuration (`ai_content/config.py`
is not under `src/`) — "per-provider base URL, API key/token, default model
identifier, and optional fast model identifier".  `video_fast_model = none`
models the attribute being absent (`hasattr` false). -/
structure AimlapiSettings where
  video_model : String
  video_fast_model : Option String

/-- Modelled from the spec: Pollinations configuration; `api_key = none`
models an unset key. -/
structure PollinationsSettings where
  video_model : String
  base_url : String
  api_key : Option String

/-- Modelled from the spec: the global settings object with per-provider
sections and "a global default output directory". -/
structure Settings where
  aimlapi : AimlapiSettings
  pollinations : PollinationsSettings
  output_dir : String

/-- Outcomes of the remote/filesystem calls an AIMLAPI `generate` run makes:
each field is the value of the call, or the `str` of the exception it raised.
`persistExc` is the exception (if any) raised by `mkdir`/`write_bytes`. -/
structure AimlapiOracle where
  submitResp : Except String (List (String × JValue))
  statusResp : Except String (List (String × JValue))
  downloadResp : Except String (List Nat)
  persistExc : Option String

/-- A very plain HTTP response: status code and body bytes. -/
structure HttpResponse where
  status_code : Nat
  content : List Nat

/-- Outcomes of the single `httpx` GET and of persistence for a
Pollinations `generate` run. -/
structure PollinationsOracle where
  getResp : Except String HttpResponse
  persistExc : Option String

def exceptIsOk {α : Type} : Except String α → Bool
  | .ok _ => true
  | .error _ => false

/-- Modelled from the Python runtime: the `str` of the `AttributeError`
raised by `output[0].get("url")` when `output[0]` is neither a `str` nor a
`dict`; the exact text is irrelevant, only that it is non-empty. -/
def attributeErrorMessage : String :=
  "AttributeError: object has no attribute get"

/-- Modelled from the spec: `AuthenticationError`
(`ai_content/core/exceptions.py` is not under `src/`); the spec requires
converted errors to carry "a descriptive error string", so its `str` is a
non-empty message naming the provider. -/
def authenticationErrorMessage (provider : String) : String :=
  "Authentication failed for provider " ++ provider

/-- Modelled from the `httpx` library: `raise_for_status` raises an
`HTTPStatusError` with a non-empty message naming the status code. -/
def httpStatusErrorMessage (code : Nat) : String :=
  "HTTP status error " ++ toString code

/-- Shallow rendering of a JSON value, standing in for Python `repr` inside
the f-string `f"No generation ID in response: {result}"`; only the
non-emptiness of the surrounding message matters to any claim. -/
def reprOfJValueShallow : JValue → String
  | .jnull => "None"
  | .jbool true => "True"
  | .jbool false => "False"
  | .jnum n => toString n
  | .jstr s => s
  | .jarr _ => "[...]"
  | .jobj _ => "<dict>"

/-- Shallow rendering of a response dict (see `reprOfJValueShallow`). -/
def reprOfDict (d : List (String × JValue)) : String :=
  "<dict with keys " ++ String.intercalate ", " (d.map (fun kv => kv.fst)) ++ ">"

/-- Python default for the `duration_seconds` keyword of both providers. -/
def defaultDurationSeconds : Int := 5

/-- Python default for the `aspect_ratio` keyword of both providers. -/
def defaultAspectRatio : String := "16:9"

/-- Failure result as both providers build it: `success=False`, provider
name, `content_type="video"`, `error=str(e)`. -/
def mkVideoFailure (provider err : String) : GenerationResult :=
  { success := false, provider := provider, content_type := "video", error := some err }

/-- One hex digit, upper case, as `urllib.parse.quote` emits. -/
def hexDigitChar (n : Nat) : Char :=
  if n < 10 then Char.ofNat (48 + n) else Char.ofNat (55 + n)

/-- Model of `urllib.parse.quote(prompt)`: percent-encodes every UTF-8 byte
outside the unreserved set (default `safe="/"`). -/
def urlQuote (s : String) : String :=
  String.mk (s.toUTF8.toList.foldr
    (fun b acc =>
      let n := b.toNat
      let c := Char.ofNat n
      if n < 128 && (c.isAlphanum || c == '_' || c == '.' || c == '-' || c == '~' || c == '/') then
        c :: acc
      else
        '%' :: hexDigitChar (n / 16) :: hexDigitChar (n % 16) :: acc)
    [])

/-- `AIMLAPIVideoProvider.name` (video.py line 31). -/
def AIMLAPIVideoProvider.name : String := "aimlapi"

/-- `AIMLAPIVideoProvider.max_duration_seconds` (video.py line 32). -/
def AIMLAPIVideoProvider.max_duration_seconds : Int := 10

/-- `AIMLAPIVideoProvider._extract_video_url` (video.py lines 155-170).
Returns `Except.error` when the Python code would raise (first list element
neither `str` nor `dict`), otherwise `Except.ok` of the returned value
(`jnull` standing for Python `None`). -/
def AIMLAPIVideoProvider.extractVideoUrl (status : List (String × JValue)) :
    Except String JValue :=
  if hasKey status "url" then .ok (getKey status "url")
  else if hasKey status "video_url" then .ok (getKey status "video_url")
  else
    match getKey status "output" with
    | .jarr (x :: _) =>
      match x with
      | .jstr s => .ok (.jstr s)
      | .jobj fields => .ok (getKey fields "url")
      | _ => .error attributeErrorMessage
    | .jobj fields => .ok (pyOr (getKey fields "url") (getKey fields "video_url"))
    | _ => .ok .jnull

/-- Payload built at video.py lines 69-79: model, prompt, aspect_ratio,
`duration = 10 if duration_seconds > 5 else 5`, and `image_url` when a
first frame is supplied. -/
def AIMLAPIVideoProvider.buildPayload (model prompt aspect_ratio : String)
    (duration_seconds : Int) (first_frame_url : Option String) :
    List (String × JValue) :=
  [("model", JValue.jstr model), ("prompt", JValue.jstr prompt),
   ("aspect_ratio", JValue.jstr aspect_ratio),
   ("duration", JValue.jnum (if duration_seconds > 5 then 10 else 5))] ++
  (match first_frame_url with
   | some u => [("image_url", JValue.jstr u)]
   | none => [])

/-- `result.get("id") or result.get("generation_id")` (video.py line 87). -/
def AIMLAPIVideoProvider.chooseGenerationId (result : List (String × JValue)) :
    JValue :=
  pyOr (getKey result "id") (getKey result "generation_id")

/-- Default output path of video.py lines 123-125:
`output_dir / "aimlapi_" + timestamp + ".mp4"`. -/
def AIMLAPIVideoProvider.defaultFilePath (st : Settings) (timestamp : String) :
    String :=
  st.output_dir ++ "/aimlapi_" ++ timestamp ++ ".mp4"

/-- `AIMLAPIVideoProvider.generate` (video.py lines 38-153). `clock` is the
UTC timestamp string `datetime.now(timezone.utc).strftime("%Y%m%d_%H%M%S")`;
`o` carries the outcome of each remote/filesystem call. Returns the
`GenerationResult` together with the trace of effects performed. -/
def AIMLAPIVideoProvider.generate (st : Settings) (clock : String)
    (o : AimlapiOracle) (prompt : String) (aspect_ratio : String)
    (duration_seconds : Int) (first_frame_url : Option String)
    (output_path : Option String) (use_fast_model : Bool) :
    GenerationResult × List Effect :=
  let model :=
    if use_fast_model then
      match st.aimlapi.video_fast_model with
      | some m => m
      | none => st.aimlapi.video_model
    else st.aimlapi.video_model
  let payload := AIMLAPIVideoProvider.buildPayload model prompt aspect_ratio
    duration_seconds first_frame_url
  match o.submitResp with
  | .error e => (mkVideoFailure "aimlapi" e, [.submit "/v2/generate/video" payload])
  | .ok result =>
    let generation_id := AIMLAPIVideoProvider.chooseGenerationId result
    if jtruthy generation_id = false then
      (mkVideoFailure "aimlapi" ("No generation ID in response: " ++ reprOfDict result),
       [.submit "/v2/generate/video" payload])
    else
      match o.statusResp with
      | .error e =>
        (mkVideoFailure "aimlapi" e,
         [.submit "/v2/generate/video" payload, .poll "/v2/generate/video" generation_id])
      | .ok status =>
        match AIMLAPIVideoProvider.extractVideoUrl status with
        | .error e =>
          (mkVideoFailure "aimlapi" e,
           [.submit "/v2/generate/video" payload, .poll "/v2/generate/video" generation_id])
        | .ok video_url =>
          if jtruthy video_url = false then
            ({ success := false, provider := "aimlapi", content_type := "video",
               error := some "No video URL in response",
               generation_id := some generation_id },
             [.submit "/v2/generate/video" payload, .poll "/v2/generate/video" generation_id])
          else
            match o.downloadResp with
            | .error e =>
              (mkVideoFailure "aimlapi" e,
               [.submit "/v2/generate/video" payload,
                .poll "/v2/generate/video" generation_id, .download video_url])
            | .ok video_data =>
              let file_path :=
                match output_path with
                | some p => p
                | none => AIMLAPIVideoProvider.defaultFilePath st clock
              match o.persistExc with
              | some e =>
                (mkVideoFailure "aimlapi" e,
                 [.submit "/v2/generate/video" payload,
                  .poll "/v2/generate/video" generation_id, .download video_url,
                  .mkdirParentsOf file_path])
              | none =>
                ({ success := true, provider := "aimlapi", content_type := "video",
                   file_path := some file_path, data := some video_data,
                   generation_id := some generation_id,
                   metadata := [("model", JValue.jstr model),
                                ("prompt", JValue.jstr prompt),
                                ("aspect_ratio", JValue.jstr aspect_ratio)] },
                 [.submit "/v2/generate/video" payload,
                  .poll "/v2/generate/video" generation_id, .download video_url,
                  .mkdirParentsOf file_path, .writeFile file_path video_data])

/-- `PollinationsVideoProvider.name` (video.py line 36). -/
def PollinationsVideoProvider.name : String := "pollinations"

/-- `PollinationsVideoProvider.max_duration_seconds` (video.py line 37). -/
def PollinationsVideoProvider.max_duration_seconds : Int := 10

/-- Python truthiness of an optional config string (`None` and `""` are
falsy). -/
def optStrTruthy : Option String → Bool
  | none => false
  | some s => !s.isEmpty

/-- `PollinationsVideoProvider.headers` (video.py lines 42-50): always
`Content-Type`, plus `Authorization: Bearer <key>` when the configured
`api_key` is truthy. -/
def PollinationsVideoProvider.headers (st : Settings) : List (String × String) :=
  [("Content-Type", "application/json")] ++
    (match st.pollinations.api_key with
     | some k => if k.isEmpty then [] else [("Authorization", "Bearer " ++ k)]
     | none => [])

/-- Query parameters built at video.py lines 73-81: model, aspect_ratio,
`duration = str(duration_seconds)` (unclamped), and `nologo=true` when an
API key is set. -/
def PollinationsVideoProvider.queryParams (st : Settings)
    (aspect_ratio : String) (duration_seconds : Int) :
    List (String × String) :=
  [("model", st.pollinations.video_model), ("aspect_ratio", aspect_ratio),
   ("duration", toString duration_seconds)] ++
  (if optStrTruthy st.pollinations.api_key then [("nologo", "true")] else [])

/-- Default output path of video.py lines 106-108:
`output_dir / "pollinations_" + timestamp + ".mp4"`. -/
def PollinationsVideoProvider.defaultFilePath (st : Settings) (timestamp : String) :
    String :=
  st.output_dir ++ "/pollinations_" ++ timestamp ++ ".mp4"

/-- `PollinationsVideoProvider.generate` (video.py lines 52-136): a single
GET whose body is the video bytes; 401 raises `AuthenticationError`,
any other non-2xx status raises via `raise_for_status`; all exceptions are
converted to a failure result. `first_frame_url` and `use_fast_model` are
accepted and ignored, as in the source. -/
def PollinationsVideoProvider.generate (st : Settings) (clock : String)
    (o : PollinationsOracle) (prompt : String) (aspect_ratio : String)
    (duration_seconds : Int) (first_frame_url : Option String)
    (output_path : Option String) (use_fast_model : Bool) :
    GenerationResult × List Effect :=
  let model := st.pollinations.video_model
  let encoded_prompt := urlQuote prompt
  let base_endpoint := st.pollinations.base_url ++ "/image/" ++ encoded_prompt
  let params := PollinationsVideoProvider.queryParams st aspect_ratio duration_seconds
  let getEff := Effect.httpGet base_endpoint params (PollinationsVideoProvider.headers st)
  match o.getResp with
  | .error e => (mkVideoFailure "pollinations" e, [getEff])
  | .ok response =>
    if response.status_code = 401 then
      (mkVideoFailure "pollinations" (authenticationErrorMessage "pollinations"), [getEff])
    else if response.status_code < 200 ∨ 300 ≤ response.status_code then
      (mkVideoFailure "pollinations" (httpStatusErrorMessage response.status_code), [getEff])
    else
      let video_data := response.content
      let file_path :=
        match output_path with
        | some p => p
        | none => PollinationsVideoProvider.defaultFilePath st clock
      match o.persistExc with
      | some e =>
        (mkVideoFailure "pollinations" e, [getEff, .mkdirParentsOf file_path])
      | none =>
        ({ success := true, provider := "pollinations", content_type := "video",
           file_path := some file_path, data := some video_data,
           metadata := [("model", JValue.jstr model),
                        ("prompt", JValue.jstr prompt),
                        ("aspect_ratio", JValue.jstr aspect_ratio),
                        ("duration", JValue.jnum duration_seconds)] },
         [getEff, .mkdirParentsOf file_path, .writeFile file_path video_data])

/-- Invariant of claim C2 on a result record, as a decidable check. -/
def resultInvariant (r : GenerationResult) : Bool :=
  if r.success then r.file_path.isSome && r.data.isSome && r.error.isNone
  else r.error.isSome && r.file_path.isNone && r.data.isNone

def Effect.isWrite : Effect → Bool
  | .writeFile _ _ => true
  | _ => false

def Effect.isSubmit : Effect → Bool
  | .submit _ _ => true
  | _ => false

def Effect.isPoll : Effect → Bool
  | .poll _ _ => true
  | _ => false

/-- Whether an effect trace contains a file write. -/
def hasWriteEffect (tr : List Effect) : Bool := tr.any Effect.isWrite

/-- True when some call of an AIMLAPI run raised. -/
def aimlapiOracleFailed (o : AimlapiOracle) : Bool :=
  !exceptIsOk o.submitResp || !exceptIsOk o.statusResp ||
  !exceptIsOk o.downloadResp || o.persistExc.isSome

/-- True when the Pollinations GET raised or returned a non-2xx status, or
persistence raised. -/
def pollinationsOracleFailed (o : PollinationsOracle) : Bool :=
  (match o.getResp with
   | .error _ => true
   | .ok r => decide (r.status_code < 200) || decide (300 ≤ r.status_code)) ||
  o.persistExc.isSome

/-- All exception messages an AIMLAPI oracle carries are non-empty
(`str(e)` of a real transport/client exception is a human-readable
message). -/
def aimlapiMsgsOk (o : AimlapiOracle) : Bool :=
  (match o.submitResp with | .error e => !e.isEmpty | .ok _ => true) &&
  (match o.statusResp with | .error e => !e.isEmpty | .ok _ => true) &&
  (match o.downloadResp with | .error e => !e.isEmpty | .ok _ => true) &&
  (match o.persistExc with | some e => !e.isEmpty | none => true)

/-- All exception messages a Pollinations oracle carries are non-empty. -/
def pollinationsMsgsOk (o : PollinationsOracle) : Bool :=
  (match o.getResp with | .error e => !e.isEmpty | .ok _ => true) &&
  (match o.persistExc with | some e => !e.isEmpty | none => true)

/-- Head of a non-empty `output` list on which `output[0].get("url")`
raises: neither a string nor a dict. -/
def badListHead : JValue → Bool
  | .jstr _ => false
  | .jobj _ => false
  | _ => true

/-- `output` values matching none of the documented shapes (not a non-empty
list, not a dict): the extractor falls through to `return None`. -/
def outputShapeUnmatched : JValue → Bool
  | .jarr (_ :: _) => false
  | .jobj _ => false
  | _ => true

/-- Concrete settings used by witnesses: API key configured. -/
def sampleSettings : Settings :=
  { aimlapi := { video_model := "wan", video_fast_model := none },
    pollinations := { video_model := "wanp", base_url := "https://poll",
                      api_key := some "KEY" },
    output_dir := "out" }

/-- Concrete settings with no Pollinations API key. -/
def sampleSettingsNoKey : Settings :=
  { aimlapi := { video_model := "wan", video_fast_model := none },
    pollinations := { video_model := "wanp", base_url := "https://poll",
                      api_key := none },
    output_dir := "out" }

/-- Oracle of a fully successful AIMLAPI run. -/
def aimlapiOkOracle : AimlapiOracle :=
  { submitResp := .ok [("id", .jstr "abc123")],
    statusResp := .ok [("url", .jstr "https://x/file.mp4")],
    downloadResp := .ok [1, 2, 3],
    persistExc := none }

/-- Oracle of an AIMLAPI run whose submission raises. -/
def aimlapiFailOracle : AimlapiOracle :=
  { submitResp := .error "connection reset",
    statusResp := .ok [], downloadResp := .ok [], persistExc := none }

/-- Oracle of an AIMLAPI run whose download raises. -/
def aimlapiDownloadFailOracle : AimlapiOracle :=
  { submitResp := .ok [("id", .jstr "abc123")],
    statusResp := .ok [("url", .jstr "https://x/file.mp4")],
    downloadResp := .error "download failed",
    persistExc := none }

/-- Oracle of an AIMLAPI run whose submission response has an empty `id`
and a non-empty `generation_id`. -/
def aimlapiEmptyIdOracle : AimlapiOracle :=
  { submitResp := .ok [("id", .jstr ""), ("generation_id", .jstr "g")],
    statusResp := .ok [("url", .jstr "u")],
    downloadResp := .ok [1],
    persistExc := none }

/-- Oracle of an AIMLAPI run whose submission response has neither `id`
nor `generation_id`. -/
def aimlapiNoIdOracle : AimlapiOracle :=
  { submitResp := .ok [],
    statusResp := .ok [("url", .jstr "u")],
    downloadResp := .ok [1],
    persistExc := none }

/-- Oracle of a fully successful Pollinations run. -/
def pollinationsOkOracle : PollinationsOracle :=
  { getResp := .ok { status_code := 200, content := [9, 9] },
    persistExc := none }

/-- Oracle of a Pollinations run whose GET raises. -/
def pollinationsFailOracle : PollinationsOracle :=
  { getResp := .error "connection reset", persistExc := none }


theorem str_ne_empty_of_isEmpty_false {s : String} (h : s.isEmpty = false) :
    s ≠ "" := by
  intro he
  rw [he] at h
  exact absurd h (by decide)

theorem str_append_ne_empty (a b : String) (ha : a.length ≠ 0) :
    a ++ b ≠ "" := by
  intro h
  have h2 : (a ++ b).length = 0 := by rw [h]; rfl
  rw [String.length_append] at h2
  omega

theorem str_append_cancel (p a b s : String) (h : p ++ a ++ s = p ++ b ++ s) :
    a = b := by
  have hd := congrArg String.data h
  simp only [String.data_append, List.append_assoc] at hd
  have h1 := List.append_cancel_left hd
  have h2 := List.append_cancel_right h1
  exact String.ext h2

/-- C2: every `GenerationResult` returned by `AIMLAPIVideoProvider.generate`
or `PollinationsVideoProvider.generate` satisfies the result invariant:
`success = true` implies `file_path` and `data` are present and `error` is
absent; `success = false` implies `error` is present and `file_path` and
`data` are absent. -/
theorem C2_result_invariant :
    (∀ st clock o prompt aspect_ratio duration_seconds first_frame_url
        output_path use_fast_model,
      resultInvariant (AIMLAPIVideoProvider.generate st clock o prompt
        aspect_ratio duration_seconds first_frame_url output_path
        use_fast_model).1 = true) ∧
    (∀ st clock o prompt aspect_ratio duration_seconds first_frame_url
        output_path use_fast_model,
      resultInvariant (PollinationsVideoProvider.generate st clock o prompt
        aspect_ratio duration_seconds first_frame_url output_path
        use_fast_model).1 = true) := by
  constructor
  · intro st clock o prompt ar d f op fast
    obtain ⟨sr, str, dr, pe⟩ := o
    unfold AIMLAPIVideoProvider.generate
    cases sr <;> cases str <;> cases dr <;> cases pe <;>
      simp [resultInvariant, mkVideoFailure] <;>
      (repeat' split) <;> simp_all [resultInvariant, mkVideoFailure]
  · intro st clock o prompt ar d f op fast
    obtain ⟨gr, pe⟩ := o
    unfold PollinationsVideoProvider.generate
    cases gr <;> cases pe <;>
      simp [resultInvariant, mkVideoFailure] <;>
      (repeat' split) <;> simp_all [resultInvariant, mkVideoFailure]

/-- C10: every result of `PollinationsVideoProvider.generate` has
`generation_id` absent, and its effect trace contains no submit and no poll
effect — the provider performs a single fetch with no submit/poll phase. -/
theorem C10_pollinations_no_generation_id :
    ∀ st clock o prompt aspect_ratio duration_seconds first_frame_url
        output_path use_fast_model,
      (PollinationsVideoProvider.generate st clock o prompt aspect_ratio
        duration_seconds first_frame_url output_path use_fast_model).1.generation_id
        = none ∧
      ((PollinationsVideoProvider.generate st clock o prompt aspect_ratio
        duration_seconds first_frame_url output_path use_fast_model).2.all
          (fun e => !e.isSubmit && !e.isPoll)) = true := by
  intro st clock o prompt ar d f op fast
  obtain ⟨gr, pe⟩ := o
  unfold PollinationsVideoProvider.generate
  cases gr <;> cases pe <;>
    simp [mkVideoFailure, Effect.isSubmit, Effect.isPoll] <;>
    (repeat' split) <;> simp_all [Effect.isSubmit, Effect.isPoll]

theorem extractVideoUrl_error_msg (status : List (String × JValue)) (e : String)
    (h : AIMLAPIVideoProvider.extractVideoUrl status = .error e) :
    e = attributeErrorMessage := by
  unfold AIMLAPIVideoProvider.extractVideoUrl at h
  (repeat' split at h) <;> simp_all

theorem extractVideoUrl_error_ne_empty (status : List (String × JValue))
    (e : String) (h : AIMLAPIVideoProvider.extractVideoUrl status = .error e) :
    e ≠ "" := by
  have := extractVideoUrl_error_msg status e h
  subst this
  decide

theorem aimlapi_error_nonempty (st : Settings) (clock : String)
    (o : AimlapiOracle) (prompt ar : String) (d : Int) (f op : Option String)
    (fast : Bool) (hmsgs : aimlapiMsgsOk o = true)
    (hfail : (AIMLAPIVideoProvider.generate st clock o prompt ar d f op
      fast).1.success = false) :
    ∃ e, (AIMLAPIVideoProvider.generate st clock o prompt ar d f op
      fast).1.error = some e ∧ e ≠ "" := by
  obtain ⟨sr, str, dr, pe⟩ := o
  simp only [aimlapiMsgsOk, Bool.and_eq_true, Bool.not_eq_true'] at hmsgs
  obtain ⟨⟨⟨h1, h2⟩, h3⟩, h4⟩ := hmsgs
  unfold AIMLAPIVideoProvider.generate at hfail ⊢
  cases sr <;> cases str <;> cases dr <;> cases pe <;>
    simp_all [mkVideoFailure] <;> (repeat' split) <;> (try simp_all)
  all_goals (first
    | decide
    | (exact str_append_ne_empty _ _ (by decide))
    | (intro hc; subst hc; simp_all [show ("" : String).isEmpty = true from rfl])
    | (solve_by_elim [extractVideoUrl_error_ne_empty]))

theorem pollinations_error_nonempty (st : Settings) (clock : String)
    (o : PollinationsOracle) (prompt ar : String) (d : Int)
    (f op : Option String) (fast : Bool)
    (hmsgs : pollinationsMsgsOk o = true)
    (hfail : (PollinationsVideoProvider.generate st clock o prompt ar d f op
      fast).1.success = false) :
    ∃ e, (PollinationsVideoProvider.generate st clock o prompt ar d f op
      fast).1.error = some e ∧ e ≠ "" := by
  obtain ⟨gr, pe⟩ := o
  simp only [pollinationsMsgsOk, Bool.and_eq_true, Bool.not_eq_true'] at hmsgs
  obtain ⟨h1, h2⟩ := hmsgs
  unfold PollinationsVideoProvider.generate at hfail ⊢
  cases gr <;> cases pe <;>
    simp_all [mkVideoFailure, authenticationErrorMessage, httpStatusErrorMessage] <;>
    (repeat' (first | split at hfail | split)) <;> (try simp_all)
  all_goals (first
    | decide
    | (exact str_append_ne_empty _ _ (by decide))
    | (intro hc; subst hc; simp_all [show ("" : String).isEmpty = true from rfl]))

theorem aimlapi_failed_oracle_fails (st : Settings) (clock : String)
    (o : AimlapiOracle) (prompt ar : String) (d : Int) (f op : Option String)
    (fast : Bool) (h : aimlapiOracleFailed o = true) :
    (AIMLAPIVideoProvider.generate st clock o prompt ar d f op
      fast).1.success = false := by
  obtain ⟨sr, str, dr, pe⟩ := o
  unfold AIMLAPIVideoProvider.generate
  cases sr <;> cases str <;> cases dr <;> cases pe <;>
    simp_all [aimlapiOracleFailed, exceptIsOk, mkVideoFailure] <;>
    (repeat' split) <;> simp_all

theorem pollinations_failed_oracle_fails (st : Settings) (clock : String)
    (o : PollinationsOracle) (prompt ar : String) (d : Int)
    (f op : Option String) (fast : Bool)
    (h : pollinationsOracleFailed o = true) :
    (PollinationsVideoProvider.generate st clock o prompt ar d f op
      fast).1.success = false := by
  obtain ⟨gr, pe⟩ := o
  unfold PollinationsVideoProvider.generate
  cases gr <;> cases pe <;>
    simp_all [pollinationsOracleFailed, mkVideoFailure] <;>
    (repeat' split) <;> simp_all

/-- C1: for every call to the `generate` of a provider and every provider-side
failure mode (any remote or filesystem call raising, any non-success
status), no exception propagates: `generate` is total and, whenever the run
fails, it returns a `GenerationResult` with `success = false` and a
non-empty `error` string — granted the raised exceptions carry non-empty
messages, which the error taxonomy of the spec guarantees. -/
theorem C1_failures_yield_failed_result_with_nonempty_error
    (stA : Settings) (clockA : String) (oA : AimlapiOracle)
    (promptA arA : String) (dA : Int) (fA opA : Option String) (fastA : Bool)
    (stP : Settings) (clockP : String) (oP : PollinationsOracle)
    (promptP arP : String) (dP : Int) (fP opP : Option String) (fastP : Bool)
    (hA : aimlapiMsgsOk oA = true) (hP : pollinationsMsgsOk oP = true) :
    (aimlapiOracleFailed oA = true →
      (AIMLAPIVideoProvider.generate stA clockA oA promptA arA dA fA opA
        fastA).1.success = false) ∧
    ((AIMLAPIVideoProvider.generate stA clockA oA promptA arA dA fA opA
        fastA).1.success = false →
      ∃ e, (AIMLAPIVideoProvider.generate stA clockA oA promptA arA dA fA opA
        fastA).1.error = some e ∧ e ≠ "") ∧
    (pollinationsOracleFailed oP = true →
      (PollinationsVideoProvider.generate stP clockP oP promptP arP dP fP opP
        fastP).1.success = false) ∧
    ((PollinationsVideoProvider.generate stP clockP oP promptP arP dP fP opP
        fastP).1.success = false →
      ∃ e, (PollinationsVideoProvider.generate stP clockP oP promptP arP dP fP
        opP fastP).1.error = some e ∧ e ≠ "") := by
  refine ⟨?_, ?_, ?_, ?_⟩
  · exact aimlapi_failed_oracle_fails stA clockA oA promptA arA dA fA opA fastA
  · exact aimlapi_error_nonempty stA clockA oA promptA arA dA fA opA fastA hA
  · exact pollinations_failed_oracle_fails stP clockP oP promptP arP dP fP opP fastP
  · exact pollinations_error_nonempty stP clockP oP promptP arP dP fP opP fastP hP

/-- Witness for C1 at concrete failing oracles: both providers return a
failed result with a non-empty error when the transport raises. -/
theorem C1_witness :
    (AIMLAPIVideoProvider.generate sampleSettings "20240101_000000"
      aimlapiFailOracle "p" "16:9" 5 none none false).1.success = false ∧
    (∃ e, (AIMLAPIVideoProvider.generate sampleSettings "20240101_000000"
      aimlapiFailOracle "p" "16:9" 5 none none false).1.error = some e ∧
      e ≠ "") ∧
    (PollinationsVideoProvider.generate sampleSettings "20240101_000000"
      pollinationsFailOracle "p" "16:9" 5 none none false).1.success = false ∧
    (∃ e, (PollinationsVideoProvider.generate sampleSettings "20240101_000000"
      pollinationsFailOracle "p" "16:9" 5 none none false).1.error = some e ∧
      e ≠ "") := by
  have h := C1_failures_yield_failed_result_with_nonempty_error
    sampleSettings "20240101_000000" aimlapiFailOracle "p" "16:9" 5 none none
    false sampleSettings "20240101_000000" pollinationsFailOracle "p" "16:9" 5
    none none false (by decide) (by decide)
  refine ⟨h.1 (by decide), h.2.1 (h.1 (by decide)), h.2.2.1 (by decide),
    h.2.2.2 (h.2.2.1 (by decide))⟩

/-- C3 counterexample: for the status payload where `output` is the
non-empty list `[42]`, no documented shape matches, yet the extractor does
not return none — it raises an `AttributeError` (`42` has no `.get`),
refuting "returns none when no shape matches". -/
theorem C3_counterexample :
    hasKey [("output", JValue.jarr [JValue.jnum 42])] "url" = false ∧
    hasKey [("output", JValue.jarr [JValue.jnum 42])] "video_url" = false ∧
    AIMLAPIVideoProvider.extractVideoUrl
      [("output", JValue.jarr [JValue.jnum 42])] =
      Except.error attributeErrorMessage := ⟨rfl, rfl, rfl⟩

/-- C3 (amended): the extractor returns the URL for each documented shape
— top-level `url`, top-level `video_url`, `output` a non-empty list headed
by a string, `output` a non-empty list headed by an object (whose `url` is
returned), `output` an object with `url` or `video_url` — and returns none
when no shape matches, except that when `output` is a non-empty list whose
first element is neither a string nor an object the lookup raises an
`AttributeError` instead (caught by the exception handler of `generate`). -/
theorem C3_extract_video_url_shapes (status : List (String × JValue)) :
    (hasKey status "url" = true →
      AIMLAPIVideoProvider.extractVideoUrl status =
        .ok (getKey status "url")) ∧
    (hasKey status "url" = false → hasKey status "video_url" = true →
      AIMLAPIVideoProvider.extractVideoUrl status =
        .ok (getKey status "video_url")) ∧
    (∀ s rest, hasKey status "url" = false → hasKey status "video_url" = false →
      getKey status "output" = .jarr (.jstr s :: rest) →
      AIMLAPIVideoProvider.extractVideoUrl status = .ok (.jstr s)) ∧
    (∀ fields rest, hasKey status "url" = false →
      hasKey status "video_url" = false →
      getKey status "output" = .jarr (.jobj fields :: rest) →
      AIMLAPIVideoProvider.extractVideoUrl status =
        .ok (getKey fields "url")) ∧
    (∀ fields, hasKey status "url" = false → hasKey status "video_url" = false →
      getKey status "output" = .jobj fields →
      AIMLAPIVideoProvider.extractVideoUrl status =
        .ok (pyOr (getKey fields "url") (getKey fields "video_url"))) ∧
    (hasKey status "url" = false → hasKey status "video_url" = false →
      outputShapeUnmatched (getKey status "output") = true →
      AIMLAPIVideoProvider.extractVideoUrl status = .ok .jnull) ∧
    (∀ x rest, hasKey status "url" = false → hasKey status "video_url" = false →
      getKey status "output" = .jarr (x :: rest) → badListHead x = true →
      AIMLAPIVideoProvider.extractVideoUrl status =
        .error attributeErrorMessage) := by
  refine ⟨?_, ?_, ?_, ?_, ?_, ?_, ?_⟩
  · intro h1
    simp [AIMLAPIVideoProvider.extractVideoUrl, h1]
  · intro h1 h2
    simp [AIMLAPIVideoProvider.extractVideoUrl, h1, h2]
  · intro s rest h1 h2 h3
    simp [AIMLAPIVideoProvider.extractVideoUrl, h1, h2, h3]
  · intro fields rest h1 h2 h3
    simp [AIMLAPIVideoProvider.extractVideoUrl, h1, h2, h3]
  · intro fields h1 h2 h3
    simp [AIMLAPIVideoProvider.extractVideoUrl, h1, h2, h3]
  · intro h1 h2 h3
    unfold AIMLAPIVideoProvider.extractVideoUrl
    rcases hv : getKey status "output" with _ | _ | _ | _ | xs | fs <;>
      simp_all [outputShapeUnmatched] <;> (cases xs <;> simp_all)
  · intro x rest h1 h2 h3 h4
    unfold AIMLAPIVideoProvider.extractVideoUrl
    cases x <;> simp_all [badListHead]

/-- Witness for C3: the amended theorem at concrete payloads of the first
and third documented shape. -/
theorem C3_witness :
    AIMLAPIVideoProvider.extractVideoUrl [("url", JValue.jstr "u")] =
      .ok (JValue.jstr "u") ∧
    AIMLAPIVideoProvider.extractVideoUrl
      [("output", JValue.jarr [JValue.jstr "s"])] = .ok (JValue.jstr "s") := by
  constructor
  · exact (C3_extract_video_url_shapes [("url", JValue.jstr "u")]).1 rfl
  · exact (C3_extract_video_url_shapes
      [("output", JValue.jarr [JValue.jstr "s"])]).2.2.1 "s" [] rfl rfl rfl

/-- C4 counterexample: the requested duration is not clamped to
`max_duration_seconds` before being sent. Pollinations sends `duration=99`
unmodified although the declared maximum is 10; AIMLAPI sends 10 for a
request of 7 although a clamp would leave 7 unchanged. -/
theorem C4_counterexample :
    lookupStr (PollinationsVideoProvider.queryParams sampleSettings "16:9" 99)
      "duration" = some "99" ∧
    ¬ ((99 : Int) ≤ PollinationsVideoProvider.max_duration_seconds) ∧
    lookupJ (AIMLAPIVideoProvider.buildPayload "wan" "p" "16:9" 7 none)
      "duration" = some (JValue.jnum 10) ∧
    (7 : Int) ≤ AIMLAPIVideoProvider.max_duration_seconds ∧
    (10 : Int) ≠ 7 := by
  refine ⟨rfl, by decide, rfl, by decide, by decide⟩

/-- C4 (amended): `duration_seconds` defaults to 5; AIMLAPI sends
`duration = 10` when the request exceeds 5 and `5` otherwise (so never more
than its declared `max_duration_seconds = 10`, but not a clamp), while
Pollinations sends the requested duration unmodified, with no clamping. -/
theorem C4_duration_mapping :
    (∀ model prompt ar (d : Int) ffu,
      lookupJ (AIMLAPIVideoProvider.buildPayload model prompt ar d ffu)
        "duration" = some (JValue.jnum (if d > 5 then 10 else 5))) ∧
    (∀ d : Int, (if d > 5 then (10 : Int) else 5) ≤
      AIMLAPIVideoProvider.max_duration_seconds) ∧
    (∀ st ar (d : Int),
      lookupStr (PollinationsVideoProvider.queryParams st ar d) "duration" =
        some (toString d)) ∧
    defaultDurationSeconds = 5 := by
  refine ⟨?_, ?_, ?_, rfl⟩
  · intro model prompt ar d ffu
    cases ffu <;> rfl
  · intro d
    unfold AIMLAPIVideoProvider.max_duration_seconds
    split <;> omega
  · intro st ar d
    rfl

/-- C5 counterexample: two `generate` calls in the same process with no
explicit `output_path` whose UTC timestamps fall in the same second (the
timestamp has second resolution) produce the same default file path, not
distinct ones. -/
theorem C5_counterexample :
    (AIMLAPIVideoProvider.generate sampleSettings "20240101_000000"
      aimlapiOkOracle "first prompt" "16:9" 5 none none false).1.file_path =
    (AIMLAPIVideoProvider.generate sampleSettings "20240101_000000"
      aimlapiOkOracle "second prompt" "16:9" 5 none none false).1.file_path ∧
    (AIMLAPIVideoProvider.generate sampleSettings "20240101_000000"
      aimlapiOkOracle "first prompt" "16:9" 5 none none false).1.file_path =
      some "out/aimlapi_20240101_000000.mp4" := ⟨rfl, rfl⟩

/-- C5 (amended): with no explicit `output_path` the default file path is
derived from the provider name and the UTC timestamp (second resolution,
fixed `.mp4` extension); calls whose timestamp strings differ get distinct,
non-colliding paths, but two calls within the same second collide. -/
theorem C5_default_path_derivation :
    (∀ st t1 t2, t1 ≠ t2 →
      AIMLAPIVideoProvider.defaultFilePath st t1 ≠
        AIMLAPIVideoProvider.defaultFilePath st t2) ∧
    (∀ st t1 t2, t1 ≠ t2 →
      PollinationsVideoProvider.defaultFilePath st t1 ≠
        PollinationsVideoProvider.defaultFilePath st t2) ∧
    (∀ st clock o prompt ar d f fast,
      (AIMLAPIVideoProvider.generate st clock o prompt ar d f none
        fast).1.success = true →
      (AIMLAPIVideoProvider.generate st clock o prompt ar d f none
        fast).1.file_path = some (AIMLAPIVideoProvider.defaultFilePath st clock)) ∧
    (∀ st clock o prompt ar d f fast,
      (PollinationsVideoProvider.generate st clock o prompt ar d f none
        fast).1.success = true →
      (PollinationsVideoProvider.generate st clock o prompt ar d f none
        fast).1.file_path =
        some (PollinationsVideoProvider.defaultFilePath st clock)) := by
  refine ⟨?_, ?_, ?_, ?_⟩
  · intro st t1 t2 hne heq
    exact hne (str_append_cancel (st.output_dir ++ "/aimlapi_") t1 t2 ".mp4" heq)
  · intro st t1 t2 hne heq
    exact hne (str_append_cancel (st.output_dir ++ "/pollinations_") t1 t2 ".mp4" heq)
  · intro st clock o prompt ar d f fast h
    obtain ⟨sr, str, dr, pe⟩ := o
    unfold AIMLAPIVideoProvider.generate at h ⊢
    cases sr <;> cases str <;> cases dr <;> cases pe <;>
      simp_all [mkVideoFailure] <;> (repeat' split) <;> simp_all
  · intro st clock o prompt ar d f fast h
    obtain ⟨gr, pe⟩ := o
    unfold PollinationsVideoProvider.generate at h ⊢
    cases gr <;> cases pe <;>
      simp_all [mkVideoFailure] <;> (repeat' split) <;> simp_all

/-- Witness for C5: distinct-second timestamps give distinct default paths,
and a successful default-path run lands on the derived path. -/
theorem C5_witness :
    AIMLAPIVideoProvider.defaultFilePath sampleSettings "20240101_000000" ≠
      AIMLAPIVideoProvider.defaultFilePath sampleSettings "20240101_000001" ∧
    (AIMLAPIVideoProvider.generate sampleSettings "20240101_000000"
      aimlapiOkOracle "p" "16:9" 5 none none false).1.file_path =
      some (AIMLAPIVideoProvider.defaultFilePath sampleSettings
        "20240101_000000") := by
  refine ⟨C5_default_path_derivation.1 sampleSettings _ _ (by decide), ?_⟩
  exact C5_default_path_derivation.2.2.1 sampleSettings "20240101_000000"
    aimlapiOkOracle "p" "16:9" 5 none false rfl

/-- C6 counterexample: a submission response whose `id` field is present
(but empty) and whose `generation_id` is `"g"`: the code takes `"g"`, not
the present `id`, because `or` tests Python truthiness, not presence. -/
theorem C6_counterexample :
    hasKey [("id", JValue.jstr ""), ("generation_id", JValue.jstr "g")]
      "id" = true ∧
    (AIMLAPIVideoProvider.generate sampleSettings "20240101_000000"
      aimlapiEmptyIdOracle "p" "16:9" 5 none none false).1.generation_id =
      some (JValue.jstr "g") ∧
    getKey [("id", JValue.jstr ""), ("generation_id", JValue.jstr "g")]
      "id" = JValue.jstr "" := ⟨rfl, rfl, rfl⟩

/-- C6 (amended): the generation id is the first Python-truthy value of the
`id` then `generation_id` fields (a present but empty/None/zero `id` is
skipped); when neither field is truthy, `generate` returns a failed result
whose error reports the missing generation ID. -/
theorem C6_generation_id_choice :
    (∀ result, jtruthy (getKey result "id") = true →
      AIMLAPIVideoProvider.chooseGenerationId result = getKey result "id") ∧
    (∀ result, jtruthy (getKey result "id") = false →
      AIMLAPIVideoProvider.chooseGenerationId result =
        getKey result "generation_id") ∧
    (∀ st clock o prompt ar d f op fast result,
      o.submitResp = Except.ok result →
      jtruthy (AIMLAPIVideoProvider.chooseGenerationId result) = false →
      (AIMLAPIVideoProvider.generate st clock o prompt ar d f op
        fast).1.success = false ∧
      (AIMLAPIVideoProvider.generate st clock o prompt ar d f op
        fast).1.error =
        some ("No generation ID in response: " ++ reprOfDict result)) := by
  refine ⟨?_, ?_, ?_⟩
  · intro result h
    simp [AIMLAPIVideoProvider.chooseGenerationId, pyOr, h]
  · intro result h
    simp [AIMLAPIVideoProvider.chooseGenerationId, pyOr, h]
  · intro st clock o prompt ar d f op fast result hsub htruthy
    obtain ⟨sr, str, dr, pe⟩ := o
    simp only at hsub
    subst hsub
    unfold AIMLAPIVideoProvider.generate
    simp [htruthy, mkVideoFailure]

/-- Witness for C6: a truthy `id` is chosen, and a response with neither
field yields the failed result reporting the missing generation ID. -/
theorem C6_witness :
    AIMLAPIVideoProvider.chooseGenerationId [("id", JValue.jstr "abc123")] =
      getKey [("id", JValue.jstr "abc123")] "id" ∧
    (AIMLAPIVideoProvider.generate sampleSettings "20240101_000000"
      aimlapiNoIdOracle "p" "16:9" 5 none none false).1.success = false := by
  refine ⟨C6_generation_id_choice.1 _ rfl, ?_⟩
  exact (C6_generation_id_choice.2.2 sampleSettings "20240101_000000"
    aimlapiNoIdOracle "p" "16:9" 5 none none false [] rfl rfl).1

/-- C7: the output file is written only after the download has completed
successfully: a write effect occurs in a trace exactly when the run
succeeded end to end, and a successful run requires the download (for
Pollinations, the GET) to have returned; hence any failure or cancellation
at or before the download leaves no write in the trace. -/
theorem C7_write_only_after_download
    (stA : Settings) (clockA : String) (oA : AimlapiOracle)
    (promptA arA : String) (dA : Int) (fA opA : Option String) (fastA : Bool)
    (stP : Settings) (clockP : String) (oP : PollinationsOracle)
    (promptP arP : String) (dP : Int) (fP opP : Option String) (fastP : Bool) :
    (hasWriteEffect (AIMLAPIVideoProvider.generate stA clockA oA promptA arA
        dA fA opA fastA).2 =
      (AIMLAPIVideoProvider.generate stA clockA oA promptA arA dA fA opA
        fastA).1.success) ∧
    ((AIMLAPIVideoProvider.generate stA clockA oA promptA arA dA fA opA
        fastA).1.success = true → exceptIsOk oA.downloadResp = true) ∧
    (hasWriteEffect (PollinationsVideoProvider.generate stP clockP oP promptP
        arP dP fP opP fastP).2 =
      (PollinationsVideoProvider.generate stP clockP oP promptP arP dP fP opP
        fastP).1.success) ∧
    ((PollinationsVideoProvider.generate stP clockP oP promptP arP dP fP opP
        fastP).1.success = true → exceptIsOk oP.getResp = true) := by
  refine ⟨?_, ?_, ?_, ?_⟩
  · obtain ⟨sr, str, dr, pe⟩ := oA
    unfold AIMLAPIVideoProvider.generate
    cases sr <;> cases str <;> cases dr <;> cases pe <;>
      simp_all [hasWriteEffect, Effect.isWrite, mkVideoFailure] <;>
      (repeat' split) <;> simp_all [Effect.isWrite]
  · intro h
    obtain ⟨sr, str, dr, pe⟩ := oA
    unfold AIMLAPIVideoProvider.generate at h
    cases sr <;> cases str <;> cases dr <;> cases pe <;>
      simp_all [exceptIsOk, mkVideoFailure] <;>
      (repeat' split at h) <;> simp_all
  · obtain ⟨gr, pe⟩ := oP
    unfold PollinationsVideoProvider.generate
    cases gr <;> cases pe <;>
      simp_all [hasWriteEffect, Effect.isWrite, mkVideoFailure] <;>
      (repeat' split) <;> simp_all [Effect.isWrite]
  · intro h
    obtain ⟨gr, pe⟩ := oP
    unfold PollinationsVideoProvider.generate at h
    cases gr <;> cases pe <;>
      simp_all [exceptIsOk, mkVideoFailure]

/-- Witness for C7 at concrete inputs: successful runs have a completed
download, and a failed download leaves no write in the trace. -/
theorem C7_witness :
    exceptIsOk aimlapiOkOracle.downloadResp = true ∧
    exceptIsOk pollinationsOkOracle.getResp = true ∧
    hasWriteEffect (AIMLAPIVideoProvider.generate sampleSettings
      "20240101_000000" aimlapiDownloadFailOracle "p" "16:9" 5 none none
      false).2 = false := by
  have h1 := C7_write_only_after_download sampleSettings "20240101_000000"
    aimlapiOkOracle "p" "16:9" 5 none none false sampleSettings
    "20240101_000000" pollinationsOkOracle "p" "16:9" 5 none none false
  have h2 := C7_write_only_after_download sampleSettings "20240101_000000"
    aimlapiDownloadFailOracle "p" "16:9" 5 none none false sampleSettings
    "20240101_000000" pollinationsOkOracle "p" "16:9" 5 none none false
  refine ⟨h1.2.1 rfl, h1.2.2.2 rfl, ?_⟩
  rw [h2.1]
  rfl

/-- C8: for every successful generation, the bytes written to `file_path`
are exactly the downloaded bytes — the write effect in the trace carries the
`data` field of the result, which equals the downloaded payload byte for byte — and a
mkdir-parents effect for the path of the file precedes persistence. -/
theorem C8_persisted_bytes_equal_data
    (stA : Settings) (clockA : String) (oA : AimlapiOracle)
    (promptA arA : String) (dA : Int) (fA opA : Option String) (fastA : Bool)
    (stP : Settings) (clockP : String) (oP : PollinationsOracle)
    (promptP arP : String) (dP : Int) (fP opP : Option String) (fastP : Bool) :
    ((AIMLAPIVideoProvider.generate stA clockA oA promptA arA dA fA opA
        fastA).1.success = true →
      ∃ p dbytes,
        (AIMLAPIVideoProvider.generate stA clockA oA promptA arA dA fA opA
          fastA).1.file_path = some p ∧
        (AIMLAPIVideoProvider.generate stA clockA oA promptA arA dA fA opA
          fastA).1.data = some dbytes ∧
        oA.downloadResp = Except.ok dbytes ∧
        Effect.mkdirParentsOf p ∈ (AIMLAPIVideoProvider.generate stA clockA oA
          promptA arA dA fA opA fastA).2 ∧
        Effect.writeFile p dbytes ∈ (AIMLAPIVideoProvider.generate stA clockA
          oA promptA arA dA fA opA fastA).2) ∧
    ((PollinationsVideoProvider.generate stP clockP oP promptP arP dP fP opP
        fastP).1.success = true →
      ∃ p dbytes resp,
        (PollinationsVideoProvider.generate stP clockP oP promptP arP dP fP
          opP fastP).1.file_path = some p ∧
        (PollinationsVideoProvider.generate stP clockP oP promptP arP dP fP
          opP fastP).1.data = some dbytes ∧
        oP.getResp = Except.ok resp ∧ resp.content = dbytes ∧
        Effect.mkdirParentsOf p ∈ (PollinationsVideoProvider.generate stP
          clockP oP promptP arP dP fP opP fastP).2 ∧
        Effect.writeFile p dbytes ∈ (PollinationsVideoProvider.generate stP
          clockP oP promptP arP dP fP opP fastP).2) := by
  constructor
  · intro h
    obtain ⟨sr, str, dr, pe⟩ := oA
    unfold AIMLAPIVideoProvider.generate at h ⊢
    cases sr <;> cases str <;> cases dr <;> cases pe <;>
      simp_all [mkVideoFailure] <;>
      (repeat' (first | split at h | split)) <;> (try simp_all)
  · intro h
    obtain ⟨gr, pe⟩ := oP
    unfold PollinationsVideoProvider.generate at h ⊢
    cases gr <;> cases pe <;>
      simp_all [mkVideoFailure] <;>
      (repeat' (first | split at h | split)) <;> (try simp_all)

/-- Witness for C8 at concrete successful runs of both providers. -/
theorem C8_witness :
    (∃ p dbytes,
      (AIMLAPIVideoProvider.generate sampleSettings "20240101_000000"
        aimlapiOkOracle "p" "16:9" 5 none none false).1.file_path = some p ∧
      (AIMLAPIVideoProvider.generate sampleSettings "20240101_000000"
        aimlapiOkOracle "p" "16:9" 5 none none false).1.data = some dbytes ∧
      aimlapiOkOracle.downloadResp = Except.ok dbytes ∧
      Effect.mkdirParentsOf p ∈ (AIMLAPIVideoProvider.generate sampleSettings
        "20240101_000000" aimlapiOkOracle "p" "16:9" 5 none none false).2 ∧
      Effect.writeFile p dbytes ∈ (AIMLAPIVideoProvider.generate sampleSettings
        "20240101_000000" aimlapiOkOracle "p" "16:9" 5 none none false).2) ∧
    (∃ p dbytes resp,
      (PollinationsVideoProvider.generate sampleSettings "20240101_000000"
        pollinationsOkOracle "p" "16:9" 5 none none false).1.file_path = some p ∧
      (PollinationsVideoProvider.generate sampleSettings "20240101_000000"
        pollinationsOkOracle "p" "16:9" 5 none none false).1.data = some dbytes ∧
      pollinationsOkOracle.getResp = Except.ok resp ∧ resp.content = dbytes ∧
      Effect.mkdirParentsOf p ∈ (PollinationsVideoProvider.generate
        sampleSettings "20240101_000000" pollinationsOkOracle "p" "16:9" 5 none
        none false).2 ∧
      Effect.writeFile p dbytes ∈ (PollinationsVideoProvider.generate
        sampleSettings "20240101_000000" pollinationsOkOracle "p" "16:9" 5 none
        none false).2) := by
  have h := C8_persisted_bytes_equal_data sampleSettings "20240101_000000"
    aimlapiOkOracle "p" "16:9" 5 none none false sampleSettings
    "20240101_000000" pollinationsOkOracle "p" "16:9" 5 none none false
  exact ⟨h.1 rfl, h.2 rfl⟩

/-- C9: the Pollinations request carries a bearer-token `Authorization`
header exactly when an API key is configured: the header is present iff the
key is truthy, its value is `Bearer <key>` for a configured non-empty key,
it is absent when the key is unset, and every `generate` run sends exactly
these headers on its outbound GET. -/
theorem C9_authorization_header (st : Settings) :
    ((lookupStr (PollinationsVideoProvider.headers st) "Authorization").isSome =
      optStrTruthy st.pollinations.api_key) ∧
    (∀ k, st.pollinations.api_key = some k → k.isEmpty = false →
      lookupStr (PollinationsVideoProvider.headers st) "Authorization" =
        some ("Bearer " ++ k)) ∧
    (st.pollinations.api_key = none →
      lookupStr (PollinationsVideoProvider.headers st) "Authorization" = none) ∧
    (∀ clock o prompt ar d f op fast, ∃ u params,
      Effect.httpGet u params (PollinationsVideoProvider.headers st) ∈
        (PollinationsVideoProvider.generate st clock o prompt ar d f op
          fast).2) := by
  refine ⟨?_, ?_, ?_, ?_⟩
  · rcases hk : st.pollinations.api_key with _ | k
    · simp [PollinationsVideoProvider.headers, hk, lookupStr, optStrTruthy]
    · cases he : k.isEmpty <;>
        simp [PollinationsVideoProvider.headers, hk, he, lookupStr, optStrTruthy]
  · intro k hk he
    simp [PollinationsVideoProvider.headers, hk, he, lookupStr]
  · intro hk
    simp [PollinationsVideoProvider.headers, hk, lookupStr]
  · intro clock o prompt ar d f op fast
    obtain ⟨gr, pe⟩ := o
    unfold PollinationsVideoProvider.generate
    cases gr <;> cases pe <;> (repeat' split) <;>
      exact ⟨_, _, List.mem_cons_self _ _⟩

/-- Witness for C9: with a configured key the header is the bearer token;
with the key unset there is no Authorization header. -/
theorem C9_witness :
    lookupStr (PollinationsVideoProvider.headers sampleSettings)
      "Authorization" = some ("Bearer " ++ "KEY") ∧
    lookupStr (PollinationsVideoProvider.headers sampleSettingsNoKey)
      "Authorization" = none := by
  refine ⟨(C9_authorization_header sampleSettings).2.1 "KEY" rfl rfl, ?_⟩
  exact (C9_authorization_header sampleSettingsNoKey).2.2.1 rfl
